import Mathlib

/-!
# Verification of the mdmi-cli preset codec and SysEx protocol layer

Shallow embedding of the preset codec (`src/mdmi/preset_parsers.py`,
`src/mdmi/presets/tfi_parser.py`, `src/mdmi/presets/dmp_parser.py`),
the SysEx generator (`src/mdmi/sysex_generator.py`) and the dump
orchestrator (`src/mdmi/commands/dump_common.py`).

Byte sequences are modelled as `List Nat`; every byte read from a file or
a MIDI port is a value in `0..255`.  Scalar arguments that Python callers
may pass as negative numbers (program / MIDI channel) are modelled as
`Int`.  Python's `bytes(list)` constructor, which raises `ValueError`
when an element is outside `0..255`, is modelled by `pyBytes`.  Fallible
Python functions (raising exceptions) are modelled with `Except String`.
-/

namespace Mdmi

/-- FM operator parameters, embedding both `FMOperator`
(`src/mdmi/preset_parsers.py`) and `FmOperator` (`src/mdmi/fm_operator.py`):
the two Python classes carry exactly the same 11 integer fields, and
`_convert_fm_operator` maps them across field-by-field. -/
structure FMOperator where
  mul : Nat := 0
  dt : Nat := 0
  ar : Nat := 0
  rs : Nat := 0
  dr : Nat := 0
  am : Nat := 0
  sl : Nat := 0
  sr : Nat := 0
  rr : Nat := 0
  tl : Nat := 0
  ssg : Nat := 0
  deriving Repr, DecidableEq

/-- The `Preset` dataclass of `src/mdmi/preset_parsers.py`.
`format_type` is `Optional` in Python (`None` for dump responses). -/
structure Preset where
  format_type : Option String
  name : String := ""
  version : Option Nat := none
  algorithm : Nat := 0
  feedback : Nat := 0
  lfo_ams : Nat := 0
  lfo_fms : Nat := 0
  operators : List FMOperator := []
  system : Option Nat := none
  melody_banks : Option Nat := none
  percussion_banks : Option Nat := none
  fm_parameters : Option (List Nat) := none
  deriving Repr, DecidableEq

/-- Python `bytes(message)`: succeeds with the same byte list when every
element is in `0..255`, otherwise raises `ValueError`.  (Elements are
`Nat` here, so only the upper bound can fail.) -/
def pyBytes (l : List Nat) : Except String (List Nat) :=
  if ∀ b ∈ l, b < 256 then Except.ok l
  else Except.error "bytes must be in range(0, 256)"

/-- Python `x or 0` on an integer `x : Nat`: returns `0` when `x` is falsy
(i.e. `x = 0`), else `x`.  Used by `generate_preset_load` on every field. -/
def pyOrZero (n : Nat) : Nat := if n = 0 then 0 else n

@[simp] theorem pyOrZero_eq (n : Nat) : pyOrZero n = n := by
  unfold pyOrZero; split <;> omega

theorem pyBytes_ok {l : List Nat} (h : ∀ b ∈ l, b < 256) :
    pyBytes l = Except.ok l := by
  unfold pyBytes; exact if_pos h

/-- The 11 bytes `generate_preset_load` emits for one operator
(`src/mdmi/sysex_generator.py` lines 48-62). -/
def opLoadBytes (op : FMOperator) : List Nat :=
  [pyOrZero op.mul, pyOrZero op.dt, pyOrZero op.ar, pyOrZero op.rs,
   pyOrZero op.dr, pyOrZero op.am, pyOrZero op.sl, pyOrZero op.sr,
   pyOrZero op.rr, pyOrZero op.tl, pyOrZero op.ssg]

/-- The `for i in range(4)` loop of `generate_preset_load`: emit the
operator when one exists at this index, else 11 zero bytes. -/
def loadOperatorSection : Nat → List FMOperator → List Nat
  | 0, _ => []
  | n + 1, [] => List.replicate 11 0 ++ loadOperatorSection n []
  | n + 1, op :: rest => opLoadBytes op ++ loadOperatorSection n rest

/-- `SysExGenerator.generate_preset_load` (`src/mdmi/sysex_generator.py`).
Validates the program range, then builds
`F0 00 22 77 0A 00 <program> <alg> <fb> <ams> <fms> <44 op bytes> F7`
and converts the list with `bytes(...)`. -/
def generate_preset_load (preset : Preset) (program : Int) :
    Except String (List Nat) :=
  if 0 ≤ program ∧ program ≤ 127 then
    pyBytes ([0xF0, 0x00, 0x22, 0x77, 0x0A, 0x00, program.toNat,
              pyOrZero preset.algorithm, pyOrZero preset.feedback,
              pyOrZero preset.lfo_ams, pyOrZero preset.lfo_fms]
             ++ loadOperatorSection 4 preset.operators ++ [0xF7])
  else Except.error "Program must be between 0 and 127"

/-- `SysExGenerator.generate_clear_preset`. -/
def generate_clear_preset (program : Int) : Except String (List Nat) :=
  if 0 ≤ program ∧ program ≤ 127 then
    pyBytes [0xF0, 0x00, 0x22, 0x77, 0x0B, 0x00, program.toNat, 0xF7]
  else Except.error "Program must be between 0 and 127"

/-- `SysExGenerator.generate_clear_all_presets`: no parameters, every
byte constant and in range, so modelled as a plain byte list. -/
def generate_clear_all_presets : List Nat :=
  [0xF0, 0x00, 0x22, 0x77, 0x0C, 0x00, 0xF7]

/-- `SysExGenerator.generate_dump_preset_request`. -/
def generate_dump_preset_request (program : Int) : Except String (List Nat) :=
  if 0 ≤ program ∧ program ≤ 127 then
    pyBytes [0xF0, 0x00, 0x22, 0x77, 0x0D, 0x00, program.toNat, 0xF7]
  else Except.error "Program must be between 0 and 127"

/-- `SysExGenerator.generate_dump_channel_request`. -/
def generate_dump_channel_request (midi_channel : Int) :
    Except String (List Nat) :=
  if 0 ≤ midi_channel ∧ midi_channel ≤ 15 then
    pyBytes [0xF0, 0x00, 0x22, 0x77, 0x0F, 0x00, midi_channel.toNat, 0xF7]
  else Except.error "MIDI channel must be between 0 and 15"

/-- The 11-byte WOPN magic `b"WOPN2-B2NK\x00"`. -/
def wopnMagic : List Nat := [87, 79, 80, 78, 50, 45, 66, 50, 78, 75, 0]

/-- The 4-byte `.DMP` signature. -/
def dmpMagic : List Nat := [46, 68, 77, 80]

/-- `detect_preset_format` (`src/mdmi/preset_parsers.py` lines 61-73). -/
def detect_preset_format (data : List Nat) : String :=
  if 12 ≤ data.length ∧ wopnMagic.isPrefixOf data then "WOPN"
  else if 4 ≤ data.length ∧ dmpMagic.isPrefixOf data then "DMP"
  else if data.length = 42 then "TFI"
  else if 0 < data.length ∧ (data.headD 0 = 8 ∨ data.headD 0 = 9 ∨ data.headD 0 = 11) then "DMP"
  else "UNKNOWN"

/-! ## Keyword-argument construction of `FmOperator`

`FmOperator.__init__` (`src/mdmi/fm_operator.py`) accepts exactly the
keyword parameters `dt, mul, tl, rs, ar, am, dr, sr, sl, rr, ssg`, each
defaulting to `0`.  Calling it with any other keyword (as
`tfi_parser.parse_operator` does with `d2r`) raises a `TypeError` before
the body runs.  We model the call as: check every supplied keyword is
accepted, then build the record, each field taken from the last matching
keyword or its default. -/

/-- The keyword parameters accepted by `FmOperator.__init__`. -/
def fmOperatorKeywords : List String :=
  ["dt", "mul", "tl", "rs", "ar", "am", "dr", "sr", "sl", "rr", "ssg"]

/-- Value bound to keyword `k`, or the default `0`. -/
def kwGet (kwargs : List (String × Nat)) (k : String) : Nat :=
  ((kwargs.lookup k).getD 0)

/-- Python keyword binding for `FmOperator(...)`: `TypeError` on an
unexpected keyword, otherwise the record. -/
def fmOperatorInit (kwargs : List (String × Nat)) : Except String FMOperator :=
  if ∀ kv ∈ kwargs, kv.1 ∈ fmOperatorKeywords then
    Except.ok
      { dt := kwGet kwargs "dt", mul := kwGet kwargs "mul",
        tl := kwGet kwargs "tl", rs := kwGet kwargs "rs",
        ar := kwGet kwargs "ar", am := kwGet kwargs "am",
        dr := kwGet kwargs "dr", sr := kwGet kwargs "sr",
        sl := kwGet kwargs "sl", rr := kwGet kwargs "rr",
        ssg := kwGet kwargs "ssg" }
  else Except.error "TypeError: FmOperator() got an unexpected keyword argument"

/-! ## TFI parser (`src/mdmi/presets/tfi_parser.py`) -/

/-- The `Tfi` record (`src/mdmi/presets/tfi.py`), extending the `Preset`
base class of `src/mdmi/preset.py` (empty operator list, zero FM fields). -/
structure Tfi where
  name : String
  algorithm : Nat := 0
  feedback : Nat := 0
  lfo_ams : Nat := 0
  lfo_fms : Nat := 0
  operators : List FMOperator := []
  deriving Repr, DecidableEq

/-- `read_byte` (`src/mdmi/util.py`): one byte from the stream;
`int.from_bytes(b"") = 0` at end of data. -/
def read_byte (data : List Nat) : Nat × List Nat :=
  (data.headD 0, data.tail)

/-- `tfi_parser.parse_operator`: read 10 bytes (zero-padded when short)
and call `FmOperator(...)` with the keywords exactly as in the source —
including the invalid `d2r` keyword. -/
def tfi_parse_operator (data : List Nat) :
    Except String (FMOperator × List Nat) := do
  let raw := data.take 10
  let d := raw ++ List.replicate (10 - raw.length) 0
  let op ← fmOperatorInit
    [("mul", d.getD 0 0), ("dt", d.getD 1 0), ("tl", d.getD 2 0),
     ("rs", d.getD 3 0), ("ar", d.getD 4 0), ("am", 0),
     ("dr", d.getD 5 0), ("d2r", d.getD 6 0), ("sl", d.getD 8 0),
     ("rr", d.getD 7 0), ("ssg", d.getD 9 0)]
  return (op, data.drop 10)

/-- `parse_tfi`: algorithm byte, feedback byte, then 4 operators. -/
def parse_tfi (data : List Nat) (name : String := "tfi_data") :
    Except String Tfi := do
  let (algorithm, r1) := read_byte data
  let (feedback, r2) := read_byte r1
  let (o1, r3) ← tfi_parse_operator r2
  let (o2, r4) ← tfi_parse_operator r3
  let (o3, r5) ← tfi_parse_operator r4
  let (o4, _) ← tfi_parse_operator r5
  return { name := name, algorithm := algorithm, feedback := feedback,
           operators := [o1, o2, o3, o4] }

/-! ## DMP parser (`src/mdmi/presets/dmp_parser.py`) -/

/-- Modelled from the spec: `src/mdmi/presets/dmp.py` (class `Dmp`) is not
under `src/`; only its constructor call `Dmp(name, version, system_type,
instrument_mode)` and field assignments appear in `dmp_parser.py`.  Per
spec §4.1 a non-FM instrument mode leaves the model with default-zero FM
fields, matching the `Preset` base class of `src/mdmi/preset.py` (empty
operator list, zero scalars). -/
structure Dmp where
  name : String
  version : Nat
  system_type : Option Nat
  instrument_mode : Nat
  algorithm : Nat := 0
  feedback : Nat := 0
  lfo_ams : Nat := 0
  lfo_fms : Nat := 0
  operators : List FMOperator := []
  deriving Repr, DecidableEq

/-- `dmp_parser.parse_operator`: `f.read(11)` then
`FmOperator(**unpack_dict("u8"*11, [mul, tl, ar, dr, sl, rr, am, rs, dt,
sr, ssg], ...))`; `bitstruct` raises when fewer than 11 bytes remain. -/
def dmp_parse_operator (data : List Nat) :
    Except String (FMOperator × List Nat) := do
  if data.length < 11 then
    throw "bitstruct: unpack requires at least 88 bits to unpack"
  let d := data.take 11
  let op ← fmOperatorInit
    [("mul", d.getD 0 0), ("tl", d.getD 1 0), ("ar", d.getD 2 0),
     ("dr", d.getD 3 0), ("sl", d.getD 4 0), ("rr", d.getD 5 0),
     ("am", d.getD 6 0), ("rs", d.getD 7 0), ("dt", d.getD 8 0),
     ("sr", d.getD 9 0), ("ssg", d.getD 10 0)]
  return (op, data.drop 11)

/-- Body of `parse_dmp` once version/system/mode are read: if the
instrument mode is FM (1), read the 4 FM header bytes
`lfo_fms, feedback, algorithm, lfo_ams`, then 4 on-disk operators,
appended to the model in the order `ops[0], ops[2], ops[1], ops[3]`. -/
def parse_dmp_body (name : String) (version : Nat) (system_type : Option Nat)
    (instrument_mode : Nat) (rest : List Nat) : Except String Dmp :=
  if instrument_mode = 1 then do
    let (fms, r1) := read_byte rest
    let (fb, r2) := read_byte r1
    let (alg, r3) := read_byte r2
    let (ams, r4) := read_byte r3
    let (op1, r5) ← dmp_parse_operator r4
    let (op2, r6) ← dmp_parse_operator r5
    let (op3, r7) ← dmp_parse_operator r6
    let (op4, _) ← dmp_parse_operator r7
    return { name := name, version := version, system_type := system_type,
             instrument_mode := instrument_mode,
             lfo_fms := fms, feedback := fb, algorithm := alg, lfo_ams := ams,
             operators := [op1, op3, op2, op4] }
  else
    return { name := name, version := version, system_type := system_type,
             instrument_mode := instrument_mode }

/-- `parse_dmp`: version byte, then the version-specific prelude
(version 8/9: mode byte and one unknown byte; version 11: system type
byte then mode byte; other versions: mode 0), then the body. -/
def parse_dmp (data : List Nat) (name : String := "dmp_data") :
    Except String Dmp :=
  let (version, r1) := read_byte data
  if version = 8 ∨ version = 9 then
    let (mode, r2) := read_byte r1
    let (_, r3) := read_byte r2
    parse_dmp_body name version none mode r3
  else if version = 11 then
    let (st, r2) := read_byte r1
    let (mode, r3) := read_byte r2
    parse_dmp_body name version (some st) mode r3
  else
    parse_dmp_body name version none 0 r1

/-! ## Dump-response decoder (`src/mdmi/preset_parsers.py` lines 205-277) -/

/-- Python `f"{n:03d}"` for a natural number. -/
def pad3 (n : Nat) : String :=
  if n < 10 then "00" ++ toString n
  else if n < 100 then "0" ++ toString n
  else toString n

/-- The `FMOperator(...)` built from the 11-byte slice at `off`
(`parse_dump_response` lines 253-266). -/
def readDumpOperator (sysex : List Nat) (off : Nat) : FMOperator :=
  { mul := sysex.getD off 0, dt := sysex.getD (off + 1) 0,
    ar := sysex.getD (off + 2) 0, rs := sysex.getD (off + 3) 0,
    dr := sysex.getD (off + 4) 0, am := sysex.getD (off + 5) 0,
    sl := sysex.getD (off + 6) 0, sr := sysex.getD (off + 7) 0,
    rr := sysex.getD (off + 8) 0, tl := sysex.getD (off + 9) 0,
    ssg := sysex.getD (off + 10) 0 }

/-- The `for i in range(4)` loop of `parse_dump_response`: at each index
`i` the slice `[op_start + 11*i, +11)` must fit before the trailing `F7`
(`op_offset + 11 > len - 1` raises), then the operator is read. -/
def readDumpOperators (sysex : List Nat) (opStart : Nat) :
    List Nat → Except String (List FMOperator)
  | [] => Except.ok []
  | i :: rest => do
    let off := opStart + i * 11
    if off + 11 > sysex.length - 1 then
      throw ("Insufficient data for operator " ++ toString i)
    let ops ← readDumpOperators sysex opStart rest
    return readDumpOperator sysex off :: ops

/-- `parse_dump_response`: validates length, the
`F0 00 22 77 0E` prefix, the trailing `F7` and the FM type byte, then
reads 4 scalars at offsets 7-10 and 4 operators of 11 bytes from
offset 11. -/
def parse_dump_response (sysex : List Nat) : Except String Preset :=
  if sysex.length < 8 then
    Except.error "SysEx too short for dump response"
  else if sysex.getD 0 0 ≠ 0xF0 ∨ (sysex.drop 1).take 3 ≠ [0x00, 0x22, 0x77] ∨
      sysex.getD 4 0 ≠ 0x0E then
    Except.error "Invalid MDMI dump response SysEx"
  else if sysex.getLast? ≠ some 0xF7 then
    Except.error "SysEx not properly terminated"
  else if sysex.getD 5 0 ≠ 0 then
    Except.error ("Unsupported preset type: " ++ toString (sysex.getD 5 0))
  else if sysex.length < 8 + 4 + 44 then
    Except.error "Insufficient data for FM preset"
  else
    (readDumpOperators sysex 11 [0, 1, 2, 3]).map fun operators =>
      { format_type := none, name := "Preset_" ++ pad3 (sysex.getD 6 0),
        algorithm := sysex.getD 7 0, feedback := sysex.getD 8 0,
        lfo_ams := sysex.getD 9 0, lfo_fms := sysex.getD 10 0,
        operators := operators }

/-! ## Preset file writers (`src/mdmi/preset_parsers.py` lines 355-446)

The writers' file path argument is external I/O; each writer is modelled
as the byte sequence it writes to the file. -/

/-- The 11 bytes `write_dmp_preset` emits for one operator, in DMP
on-disk field order `mul, tl, ar, dr, sl, rr, am, rs, dt, sr, ssg`. -/
def dmpOpBytes (op : FMOperator) : List Nat :=
  [op.mul, op.tl, op.ar, op.dr, op.sl, op.rr, op.am, op.rs, op.dt,
   op.sr, op.ssg]

/-- `write_dmp_preset`: requires 4 operators, then emits version 11,
system type 1, instrument mode 1, the FM header
`lfo_fms, feedback, algorithm, lfo_ams`, and the operators indexed in
`dmp_order = [0, 2, 1, 3]`. -/
def write_dmp_preset (preset : Preset) : Except String (List Nat) :=
  if preset.operators.length < 4 then
    Except.error "DMP format requires 4 operators"
  else
    pyBytes ([11, 1, 1, preset.lfo_fms, preset.feedback, preset.algorithm,
              preset.lfo_ams]
             ++ dmpOpBytes (preset.operators.getD 0 {})
             ++ dmpOpBytes (preset.operators.getD 2 {})
             ++ dmpOpBytes (preset.operators.getD 1 {})
             ++ dmpOpBytes (preset.operators.getD 3 {}))

/-- The 10 bytes `write_tfi_preset` emits for one operator, in TFI field
order `mul, dt, tl, rs, ar, dr, sr, rr, sl, ssg`. -/
def tfiOpBytes (op : FMOperator) : List Nat :=
  [op.mul, op.dt, op.tl, op.rs, op.ar, op.dr, op.sr, op.rr, op.sl, op.ssg]

/-- `write_tfi_preset`: requires 4 operators, then emits algorithm,
feedback and every operator of the list in order. -/
def write_tfi_preset (preset : Preset) : Except String (List Nat) :=
  if preset.operators.length < 4 then
    Except.error "TFI format requires 4 operators"
  else
    pyBytes ([preset.algorithm, preset.feedback]
             ++ (preset.operators.map tfiOpBytes).flatten)

/-! ## Dump orchestrator (`src/mdmi/commands/dump_common.py`)

`execute_dump_command` builds and sends the request (transport I/O,
external), waits for a reply with `wait_for_sysex(timeout)` — the
wall-clock bound lives inside the transport collaborator — and then
classifies the outcome.  We model the classification: the transport
reply is an `Option (List Nat)` (`None` on timeout), and the terminal
resolution of the invocation is a `DumpOutcome`. -/

/-- One hex digit, uppercase. -/
def hexChar (n : Nat) : Char :=
  "0123456789ABCDEF".toList.getD n 'X'

/-- Python `f"{b:02X}"` for one MIDI byte (`b < 256`). -/
def byteHex (b : Nat) : String :=
  String.mk [hexChar (b / 16 % 16), hexChar (b % 16)]

/-- Python `" ".join(f"{b:02X}" for b in dump_response)`. -/
def hexJoin (l : List Nat) : String :=
  String.intercalate " " (l.map byteHex)

/-- Terminal resolution of one dump invocation
(`execute_dump_command`): no reply within the timeout (`dump_response is
None` branch); a reply the decoder rejects, with the raw bytes rendered
as hex for display; a decoded preset whose file write failed; or the
preset file bytes written. -/
inductive DumpOutcome where
  | timedOut : DumpOutcome
  | malformedResponse (rawHex : String) (err : String) : DumpOutcome
  | writeFailed (err : String) : DumpOutcome
  | success (fileBytes : List Nat) : DumpOutcome
  deriving Repr, DecidableEq

/-- The response-classification logic of `execute_dump_command`
(lines 88-125): timeout when the transport returned nothing; otherwise
decode with the supplied parser (`parse_response_func`), reporting a
malformed response together with the hex rendering of the raw bytes on
failure; otherwise write the preset in the requested format. -/
def execute_dump_command (output_format : String)
    (parseResponse : List Nat → Except String Preset)
    (dumpResponse : Option (List Nat)) : DumpOutcome :=
  match dumpResponse with
  | none => DumpOutcome.timedOut
  | some raw =>
    match parseResponse raw with
    | Except.error e => DumpOutcome.malformedResponse (hexJoin raw) e
    | Except.ok preset =>
      match (if output_format = "dmp" then write_dmp_preset preset
             else if output_format = "tfi" then write_tfi_preset preset
             else Except.error ("Unsupported output format: " ++ output_format)) with
      | Except.error e => DumpOutcome.writeFailed e
      | Except.ok fileBytes => DumpOutcome.success fileBytes

/-! ## Shared helper predicates and lemmas -/

/-- Every field of an operator is a valid byte value. -/
def OpBytesOK (op : FMOperator) : Prop :=
  op.mul < 256 ∧ op.dt < 256 ∧ op.ar < 256 ∧ op.rs < 256 ∧ op.dr < 256 ∧
  op.am < 256 ∧ op.sl < 256 ∧ op.sr < 256 ∧ op.rr < 256 ∧ op.tl < 256 ∧
  op.ssg < 256

instance (op : FMOperator) : Decidable (OpBytesOK op) := by
  unfold OpBytesOK; infer_instance

/-- Every scalar and operator field of a preset is a valid byte value. -/
def PresetBytesOK (p : Preset) : Prop :=
  p.algorithm < 256 ∧ p.feedback < 256 ∧ p.lfo_ams < 256 ∧ p.lfo_fms < 256 ∧
  ∀ op ∈ p.operators, OpBytesOK op

instance (p : Preset) : Decidable (PresetBytesOK p) := by
  unfold PresetBytesOK; infer_instance

theorem opLoadBytes_lt {op : FMOperator} (h : OpBytesOK op) :
    ∀ b ∈ opLoadBytes op, b < 256 := by
  obtain ⟨h1, h2, h3, h4, h5, h6, h7, h8, h9, h10, h11⟩ := h
  intro b hb
  simp only [opLoadBytes, pyOrZero_eq, List.mem_cons, List.not_mem_nil,
    or_false] at hb
  rcases hb with rfl | rfl | rfl | rfl | rfl | rfl | rfl | rfl | rfl |
    rfl | rfl <;> assumption

theorem loadOperatorSection_lt (n : Nat) (ops : List FMOperator)
    (h : ∀ op ∈ ops, OpBytesOK op) :
    ∀ b ∈ loadOperatorSection n ops, b < 256 := by
  induction n generalizing ops with
  | zero => simp [loadOperatorSection]
  | succ n ih =>
    cases ops with
    | nil =>
      simp only [loadOperatorSection, List.mem_append]
      rintro b (hb | hb)
      · simp [List.eq_of_mem_replicate hb]
      · exact ih [] (by simp) b hb
    | cons op rest =>
      simp only [loadOperatorSection, List.mem_append]
      rintro b (hb | hb)
      · exact opLoadBytes_lt (h op (by simp)) b hb
      · exact ih rest (fun o ho => h o (by simp [ho])) b hb

/-- The operator section of `generate_preset_load` is the concatenation
of the present operators (at most `n`) followed by zero fill. -/
theorem loadOperatorSection_eq (n : Nat) (ops : List FMOperator)
    (h : ops.length ≤ n) :
    loadOperatorSection n ops =
      (ops.map opLoadBytes).flatten ++
        List.replicate (11 * (n - ops.length)) 0 := by
  induction n generalizing ops with
  | zero =>
    have : ops = [] := List.eq_nil_of_length_eq_zero (Nat.le_zero.mp h)
    subst this; simp [loadOperatorSection]
  | succ n ih =>
    cases ops with
    | nil =>
      rw [loadOperatorSection, ih [] (by simp)]
      have h11 : 11 * (n + 1 - List.length ([] : List FMOperator)) =
          11 + 11 * (n - List.length ([] : List FMOperator)) := by
        simp; omega
      rw [h11, List.replicate_add]
      simp
    | cons op rest =>
      rw [loadOperatorSection, ih rest (by simpa using h)]
      simp

/-- The operator section always holds `11 * n` bytes. -/
theorem loadOperatorSection_length (n : Nat) (ops : List FMOperator) :
    (loadOperatorSection n ops).length = 11 * n := by
  induction n generalizing ops with
  | zero => simp [loadOperatorSection]
  | succ n ih =>
    cases ops with
    | nil =>
      rw [loadOperatorSection]
      simp only [List.length_append, List.length_replicate, ih]
      omega
    | cons op rest =>
      rw [loadOperatorSection]
      simp only [List.length_append, ih, opLoadBytes, List.length_cons,
        List.length_nil]
      omega

/-- Success shape of `generate_preset_load` for a valid program and a
byte-valued preset. -/
theorem generate_preset_load_ok (p : Preset) (program : Int)
    (hprog : 0 ≤ program ∧ program ≤ 127) (hb : PresetBytesOK p) :
    generate_preset_load p program =
      Except.ok ([0xF0, 0x00, 0x22, 0x77, 0x0A, 0x00, program.toNat,
                  p.algorithm, p.feedback, p.lfo_ams, p.lfo_fms]
                 ++ loadOperatorSection 4 p.operators ++ [0xF7]) := by
  obtain ⟨ha, hf, hams, hfms, hops⟩ := hb
  unfold generate_preset_load
  rw [if_pos hprog]
  simp only [pyOrZero_eq]
  apply pyBytes_ok
  intro b hbm
  simp only [List.mem_append, List.mem_cons, List.not_mem_nil, or_false] at hbm
  rcases hbm with (h | hsec) | rfl
  · rcases h with rfl | rfl | rfl | rfl | rfl | rfl | rfl | rfl | rfl |
      rfl | rfl <;> omega
  · exact loadOperatorSection_lt 4 p.operators hops b hsec
  · omega

/-! ## Claim theorems -/

/-- Claim C2 (status: code_bug).  The spec scenario says a 42-byte TFI
buffer that is all zeros except byte 0 = 2 parses successfully and then
encodes to a 56-byte load message.  The code cannot parse any TFI data:
`tfi_parser.parse_operator` calls `FmOperator(...)` with the keyword
`d2r`, which `FmOperator.__init__` (`src/mdmi/fm_operator.py`) does not
accept, so Python raises `TypeError` on the very first operator.  The
repository's own tests (`test_parse_basic_tfi`,
`test_parse_invalid_tfi_size`) assert TFI parsing succeeds, so the code
contradicts its own test suite.  This theorem evaluates the embedded
parser at the claimed input. -/
theorem c2_tfi_parse_raises_type_error :
    parse_tfi (2 :: List.replicate 41 0) =
      Except.error "TypeError: FmOperator() got an unexpected keyword argument" := by
  rfl

/-- Claim C5 (status: confirmed).  `generate_clear_all_presets()` always
returns exactly the 7 bytes `F0 00 22 77 0C 00 F7`, and
`generate_clear_preset(42)` returns exactly the 8 bytes
`F0 00 22 77 0B 00 2A F7`. -/
theorem c5_fixed_length_contracts :
    generate_clear_all_presets = [0xF0, 0x00, 0x22, 0x77, 0x0C, 0x00, 0xF7] ∧
    generate_clear_preset 42 =
      Except.ok [0xF0, 0x00, 0x22, 0x77, 0x0B, 0x00, 0x2A, 0xF7] := by
  exact ⟨rfl, rfl⟩

/-- Claim C9 (status: confirmed).  When the transport's receive
operation returns `None`, the dump orchestrator resolves the invocation
as the timeout outcome: it never raises and never returns a parsed
model (in particular the resolution is never a success carrying file
bytes).  The wall-clock bound itself lives inside the transport
collaborator's `wait_for_sysex`, outside this core. -/
theorem c9_timeout_resolution (output_format : String)
    (parseResponse : List Nat → Except String Preset) :
    execute_dump_command output_format parseResponse none =
      DumpOutcome.timedOut ∧
    ∀ fileBytes, execute_dump_command output_format parseResponse none ≠
      DumpOutcome.success fileBytes := by
  refine ⟨rfl, ?_⟩
  intro fileBytes
  simp [execute_dump_command]

/-- Claim C7, counterexample.  The claim says every buffer that starts
with the 11-byte WOPN magic detects as WOPN "regardless of how many
bytes (including zero) follow the magic".  The code additionally
requires `len(data) >= 12`, so the bare 11-byte magic itself — a buffer
with zero bytes after the magic — detects as UNKNOWN. -/
theorem c7_counterexample :
    wopnMagic.isPrefixOf wopnMagic = true ∧
    detect_preset_format wopnMagic = "UNKNOWN" := by
  decide

/-- Claim C7 (status: corrected).  `detect_preset_format` is a pure
deterministic function of its input bytes; a 42-byte all-zero buffer
detects as TFI; and every buffer that starts with the 11-byte WOPN
magic **and has at least one further byte** (total length ≥ 12) detects
as WOPN, regardless of the trailing content. -/
theorem c7_detection_determinism (d₁ d₂ rest : List Nat)
    (hd : d₁ = d₂) (hrest : rest ≠ []) :
    detect_preset_format d₁ = detect_preset_format d₂ ∧
    detect_preset_format (List.replicate 42 0) = "TFI" ∧
    detect_preset_format (wopnMagic ++ rest) = "WOPN" := by
  refine ⟨hd ▸ rfl, by decide, ?_⟩
  have hlen : 12 ≤ (wopnMagic ++ rest).length := by
    rw [List.length_append]
    have := List.length_pos.mpr hrest
    simp only [wopnMagic, List.length_cons, List.length_nil]
    omega
  have hpre : wopnMagic.isPrefixOf (wopnMagic ++ rest) = true := by
    simp [List.isPrefixOf_iff_prefix]
  unfold detect_preset_format
  rw [if_pos ⟨hlen, hpre⟩]

/-- Witness for `c7_detection_determinism` at concrete inputs. -/
theorem c7_detection_determinism_witness :
    detect_preset_format [] = detect_preset_format [] ∧
    detect_preset_format (List.replicate 42 0) = "TFI" ∧
    detect_preset_format (wopnMagic ++ [0]) = "WOPN" :=
  c7_detection_determinism [] [] [0] rfl (by decide)

/-- Claim C4 (status: confirmed).  `generate_preset_load`,
`generate_clear_preset` and `generate_dump_preset_request` raise
`ValueError` for `program = -1` and `program = 128`;
`generate_dump_channel_request` raises for `midi_channel = -1` and
`midi_channel = 16` — in the embedding an `Except.error` result carries
no bytes, modelling "raised before any bytes are produced".  For the
boundary values `program = 0`, `program = 127`, `midi_channel = 0` and
`midi_channel = 15` every encoder returns a complete message (for the
preset-load encoder, with any byte-valued preset). -/
theorem c4_range_enforcement (p : Preset) (hb : PresetBytesOK p) :
    (∀ q : Preset,
      generate_preset_load q (-1) =
        Except.error "Program must be between 0 and 127" ∧
      generate_preset_load q 128 =
        Except.error "Program must be between 0 and 127") ∧
    generate_clear_preset (-1) =
      Except.error "Program must be between 0 and 127" ∧
    generate_clear_preset 128 =
      Except.error "Program must be between 0 and 127" ∧
    generate_dump_preset_request (-1) =
      Except.error "Program must be between 0 and 127" ∧
    generate_dump_preset_request 128 =
      Except.error "Program must be between 0 and 127" ∧
    generate_dump_channel_request (-1) =
      Except.error "MIDI channel must be between 0 and 15" ∧
    generate_dump_channel_request 16 =
      Except.error "MIDI channel must be between 0 and 15" ∧
    (∃ m, generate_preset_load p 0 = Except.ok m) ∧
    (∃ m, generate_preset_load p 127 = Except.ok m) ∧
    (∃ m, generate_clear_preset 0 = Except.ok m) ∧
    (∃ m, generate_clear_preset 127 = Except.ok m) ∧
    (∃ m, generate_dump_preset_request 0 = Except.ok m) ∧
    (∃ m, generate_dump_preset_request 127 = Except.ok m) ∧
    (∃ m, generate_dump_channel_request 0 = Except.ok m) ∧
    (∃ m, generate_dump_channel_request 15 = Except.ok m) := by
  refine ⟨fun q => ⟨?_, ?_⟩, ?_, ?_, ?_, ?_, ?_, ?_,
    ⟨_, generate_preset_load_ok p 0 (by omega) hb⟩,
    ⟨_, generate_preset_load_ok p 127 (by omega) hb⟩,
    ⟨_, rfl⟩, ⟨_, rfl⟩, ⟨_, rfl⟩, ⟨_, rfl⟩, ⟨_, rfl⟩, ⟨_, rfl⟩⟩
  · rw [generate_preset_load, if_neg (by omega)]
  · rw [generate_preset_load, if_neg (by omega)]
  · rw [generate_clear_preset, if_neg (by omega)]
  · rw [generate_clear_preset, if_neg (by omega)]
  · rw [generate_dump_preset_request, if_neg (by omega)]
  · rw [generate_dump_preset_request, if_neg (by omega)]
  · rw [generate_dump_channel_request, if_neg (by omega)]
  · rw [generate_dump_channel_request, if_neg (by omega)]

/-- Witness for `c4_range_enforcement` at the all-zero preset. -/
theorem c4_range_enforcement_witness :
    PresetBytesOK { format_type := none } ∧
    (∃ m, generate_preset_load { format_type := none } 0 = Except.ok m) ∧
    generate_dump_channel_request 16 =
      Except.error "MIDI channel must be between 0 and 15" := by
  have h := c4_range_enforcement { format_type := none } (by decide)
  exact ⟨by decide, h.2.2.2.2.2.2.2.1, h.2.2.2.2.2.2.1⟩

/-- Claim C10, counterexample.  The claim quantifies over *every* Preset
with fewer than 4 operators and asserts `generate_preset_load` "does not
fail"; but the `Preset` dataclass does not constrain its integer fields,
and `bytes(message)` raises `ValueError` when a field is not a byte:
with `algorithm = 256` and an empty operator list the encoder fails. -/
theorem c10_counterexample :
    ({ format_type := none, algorithm := 256 } : Preset).operators.length < 4 ∧
    generate_preset_load { format_type := none, algorithm := 256 } 0 =
      Except.error "bytes must be in range(0, 256)" := by
  exact ⟨by decide, rfl⟩

/-- Claim C10 (status: corrected).  For every Preset with *byte-valued*
scalar and operator fields whose operators list has fewer than 4 entries
and every program in 0..127, `generate_preset_load` does not fail: it
zero-fills each missing operator with 11 zero bytes and returns exactly
56 bytes starting `F0 00 22 77 0A 00` and ending `F7` — unlike the DMP
and TFI file writers, which raise `ValueError` for fewer than 4
operators. -/
theorem c10_short_operator_list (p : Preset) (program : Int)
    (hlen : p.operators.length < 4)
    (hprog : 0 ≤ program ∧ program ≤ 127) (hb : PresetBytesOK p) :
    (∃ m, generate_preset_load p program = Except.ok m ∧
      m.length = 56 ∧
      m.take 6 = [0xF0, 0x00, 0x22, 0x77, 0x0A, 0x00] ∧
      m.getLast? = some 0xF7 ∧
      m = [0xF0, 0x00, 0x22, 0x77, 0x0A, 0x00, program.toNat,
           p.algorithm, p.feedback, p.lfo_ams, p.lfo_fms]
          ++ ((p.operators.map opLoadBytes).flatten ++
              List.replicate (11 * (4 - p.operators.length)) 0) ++ [0xF7]) ∧
    write_dmp_preset p = Except.error "DMP format requires 4 operators" ∧
    write_tfi_preset p = Except.error "TFI format requires 4 operators" := by
  refine ⟨⟨_, generate_preset_load_ok p program hprog hb, ?_, ?_, ?_, ?_⟩,
    ?_, ?_⟩
  · simp only [List.length_append, loadOperatorSection_length,
      List.length_cons, List.length_nil]
  · rfl
  · rw [List.getLast?_concat]
  · rw [loadOperatorSection_eq 4 p.operators (by omega)]
  · rw [write_dmp_preset, if_pos hlen]
  · rw [write_tfi_preset, if_pos hlen]

/-- Witness for `c10_short_operator_list` at the all-zero empty-operator
preset and program 0. -/
theorem c10_short_operator_list_witness :
    (∃ m, generate_preset_load { format_type := none } 0 = Except.ok m ∧
      m.length = 56 ∧
      m.take 6 = [0xF0, 0x00, 0x22, 0x77, 0x0A, 0x00] ∧
      m.getLast? = some 0xF7 ∧
      m = [0xF0, 0x00, 0x22, 0x77, 0x0A, 0x00, (0 : Int).toNat,
           0, 0, 0, 0]
          ++ (([] : List (List Nat)).flatten ++ List.replicate (11 * 4) 0)
          ++ [0xF7]) ∧
    write_dmp_preset { format_type := none } =
      Except.error "DMP format requires 4 operators" ∧
    write_tfi_preset { format_type := none } =
      Except.error "TFI format requires 4 operators" :=
  c10_short_operator_list { format_type := none } 0 (by decide)
    (by omega) (by decide)

/-- Claim C1 (status: confirmed).  For every Preset with exactly 4
operators whose scalar and operator fields are valid byte values,
building the dump-response frame `F0 00 22 77 0E 00 <program>` followed
by the same 4-scalar and 4×11-operator payload that
`generate_preset_load` emits (obtained here by rewriting byte 4 of the
emitted load message from `0A` to `0E`), and decoding it with
`parse_dump_response`, yields a Preset whose `algorithm`, `feedback`,
`lfo_ams`, `lfo_fms` and all 11 fields of each of the 4 operators are
bit-identical to the original model. -/
theorem c1_load_dump_roundtrip (p : Preset) (program : Int)
    (o1 o2 o3 o4 : FMOperator)
    (hops : p.operators = [o1, o2, o3, o4])
    (hprog : 0 ≤ program ∧ program ≤ 127)
    (hb : PresetBytesOK p) :
    ∃ m, generate_preset_load p program = Except.ok m ∧
      ∃ q, parse_dump_response (m.set 4 0x0E) = Except.ok q ∧
        q.algorithm = p.algorithm ∧ q.feedback = p.feedback ∧
        q.lfo_ams = p.lfo_ams ∧ q.lfo_fms = p.lfo_fms ∧
        q.operators = p.operators := by
  have hm := generate_preset_load_ok p program hprog hb
  rw [hops] at hm
  have hsec : loadOperatorSection 4 [o1, o2, o3, o4] =
      [o1.mul, o1.dt, o1.ar, o1.rs, o1.dr, o1.am, o1.sl, o1.sr, o1.rr,
       o1.tl, o1.ssg,
       o2.mul, o2.dt, o2.ar, o2.rs, o2.dr, o2.am, o2.sl, o2.sr, o2.rr,
       o2.tl, o2.ssg,
       o3.mul, o3.dt, o3.ar, o3.rs, o3.dr, o3.am, o3.sl, o3.sr, o3.rr,
       o3.tl, o3.ssg,
       o4.mul, o4.dt, o4.ar, o4.rs, o4.dr, o4.am, o4.sl, o4.sr, o4.rr,
       o4.tl, o4.ssg] := by
    simp [loadOperatorSection, opLoadBytes]
  rw [hsec] at hm
  refine ⟨_, hm, _, rfl, rfl, rfl, rfl, rfl, ?_⟩
  rw [hops]
  rfl

/-- Witness for `c1_load_dump_roundtrip` at the all-zero 4-operator
preset and program 0. -/
theorem c1_load_dump_roundtrip_witness :
    ∃ m, generate_preset_load
        { format_type := none, operators := [{}, {}, {}, {}] } 0 =
        Except.ok m ∧
      ∃ q, parse_dump_response (m.set 4 0x0E) = Except.ok q ∧
        q.algorithm = 0 ∧ q.feedback = 0 ∧ q.lfo_ams = 0 ∧ q.lfo_fms = 0 ∧
        q.operators = [{}, {}, {}, {}] :=
  c1_load_dump_roundtrip { format_type := none, operators := [{}, {}, {}, {}] }
    0 {} {} {} {} rfl (by omega) (by decide)

/-- Claim C3 (status: confirmed).  For every 4 operator byte-blocks
`A, B, C, D` (11 bytes each — distinctness is not needed, so the claim's
"distinct" case is included), parsing a version-11 FM-mode DMP stream
whose on-disk operator blocks appear in order `[A, B, C, D]` yields the
logical operator sequence `[A, C, B, D]` (each block decoded with the
DMP field order `mul, tl, ar, dr, sl, rr, am, rs, dt, sr, ssg`), and
writing a Preset whose logical operator sequence is `[A, C, B, D]` with
`write_dmp_preset` emits the on-disk operator blocks in order
`[A, B, C, D]` again: the write transform is the exact inverse of the
read transform. -/
theorem c3_dmp_operator_reorder
    (st fms fb alg ams : Nat)
    (a1 a2 a3 a4 a5 a6 a7 a8 a9 a10 a11 : Nat)
    (b1 b2 b3 b4 b5 b6 b7 b8 b9 b10 b11 : Nat)
    (c1 c2 c3 c4 c5 c6 c7 c8 c9 c10 c11 : Nat)
    (d1 d2 d3 d4 d5 d6 d7 d8 d9 d10 d11 : Nat)
    (hbytes : ∀ x ∈ ([11, 1, 1, fms, fb, alg, ams]
        ++ [a1, a2, a3, a4, a5, a6, a7, a8, a9, a10, a11]
        ++ [b1, b2, b3, b4, b5, b6, b7, b8, b9, b10, b11]
        ++ [c1, c2, c3, c4, c5, c6, c7, c8, c9, c10, c11]
        ++ [d1, d2, d3, d4, d5, d6, d7, d8, d9, d10, d11] : List Nat),
      x < 256) :
    (parse_dmp (11 :: st :: 1 :: fms :: fb :: alg :: ams ::
        ([a1, a2, a3, a4, a5, a6, a7, a8, a9, a10, a11]
         ++ [b1, b2, b3, b4, b5, b6, b7, b8, b9, b10, b11]
         ++ [c1, c2, c3, c4, c5, c6, c7, c8, c9, c10, c11]
         ++ [d1, d2, d3, d4, d5, d6, d7, d8, d9, d10, d11]))).map
        Dmp.operators =
      Except.ok
        [{ mul := a1, tl := a2, ar := a3, dr := a4, sl := a5, rr := a6,
           am := a7, rs := a8, dt := a9, sr := a10, ssg := a11 },
         { mul := c1, tl := c2, ar := c3, dr := c4, sl := c5, rr := c6,
           am := c7, rs := c8, dt := c9, sr := c10, ssg := c11 },
         { mul := b1, tl := b2, ar := b3, dr := b4, sl := b5, rr := b6,
           am := b7, rs := b8, dt := b9, sr := b10, ssg := b11 },
         { mul := d1, tl := d2, ar := d3, dr := d4, sl := d5, rr := d6,
           am := d7, rs := d8, dt := d9, sr := d10, ssg := d11 }] ∧
    write_dmp_preset
      { format_type := some "DMP", lfo_fms := fms, feedback := fb,
        algorithm := alg, lfo_ams := ams,
        operators :=
          [{ mul := a1, tl := a2, ar := a3, dr := a4, sl := a5, rr := a6,
             am := a7, rs := a8, dt := a9, sr := a10, ssg := a11 },
           { mul := c1, tl := c2, ar := c3, dr := c4, sl := c5, rr := c6,
             am := c7, rs := c8, dt := c9, sr := c10, ssg := c11 },
           { mul := b1, tl := b2, ar := b3, dr := b4, sl := b5, rr := b6,
             am := b7, rs := b8, dt := b9, sr := b10, ssg := b11 },
           { mul := d1, tl := d2, ar := d3, dr := d4, sl := d5, rr := d6,
             am := d7, rs := d8, dt := d9, sr := d10, ssg := d11 }] } =
      Except.ok ([11, 1, 1, fms, fb, alg, ams]
        ++ [a1, a2, a3, a4, a5, a6, a7, a8, a9, a10, a11]
        ++ [b1, b2, b3, b4, b5, b6, b7, b8, b9, b10, b11]
        ++ [c1, c2, c3, c4, c5, c6, c7, c8, c9, c10, c11]
        ++ [d1, d2, d3, d4, d5, d6, d7, d8, d9, d10, d11]) := by
  constructor
  · rfl
  · rw [write_dmp_preset, if_neg (by simp)]
    exact pyBytes_ok hbytes

/-- Witness for `c3_dmp_operator_reorder` at four distinct concrete
blocks `A = 1..11`, `B = 12..22`, `C = 23..33`, `D = 34..44`. -/
theorem c3_dmp_operator_reorder_witness :
    (parse_dmp (11 :: 9 :: 1 :: 61 :: 62 :: 63 :: 64 ::
        ([1, 2, 3, 4, 5, 6, 7, 8, 9, 10, 11]
         ++ [12, 13, 14, 15, 16, 17, 18, 19, 20, 21, 22]
         ++ [23, 24, 25, 26, 27, 28, 29, 30, 31, 32, 33]
         ++ [34, 35, 36, 37, 38, 39, 40, 41, 42, 43, 44]))).map
        Dmp.operators =
      Except.ok
        [{ mul := 1, tl := 2, ar := 3, dr := 4, sl := 5, rr := 6,
           am := 7, rs := 8, dt := 9, sr := 10, ssg := 11 },
         { mul := 23, tl := 24, ar := 25, dr := 26, sl := 27, rr := 28,
           am := 29, rs := 30, dt := 31, sr := 32, ssg := 33 },
         { mul := 12, tl := 13, ar := 14, dr := 15, sl := 16, rr := 17,
           am := 18, rs := 19, dt := 20, sr := 21, ssg := 22 },
         { mul := 34, tl := 35, ar := 36, dr := 37, sl := 38, rr := 39,
           am := 40, rs := 41, dt := 42, sr := 43, ssg := 44 }] ∧
    write_dmp_preset
      { format_type := some "DMP", lfo_fms := 61, feedback := 62,
        algorithm := 63, lfo_ams := 64,
        operators :=
          [{ mul := 1, tl := 2, ar := 3, dr := 4, sl := 5, rr := 6,
             am := 7, rs := 8, dt := 9, sr := 10, ssg := 11 },
           { mul := 23, tl := 24, ar := 25, dr := 26, sl := 27, rr := 28,
             am := 29, rs := 30, dt := 31, sr := 32, ssg := 33 },
           { mul := 12, tl := 13, ar := 14, dr := 15, sl := 16, rr := 17,
             am := 18, rs := 19, dt := 20, sr := 21, ssg := 22 },
           { mul := 34, tl := 35, ar := 36, dr := 37, sl := 38, rr := 39,
             am := 40, rs := 41, dt := 42, sr := 43, ssg := 44 }] } =
      Except.ok ([11, 1, 1, 61, 62, 63, 64]
        ++ [1, 2, 3, 4, 5, 6, 7, 8, 9, 10, 11]
        ++ [12, 13, 14, 15, 16, 17, 18, 19, 20, 21, 22]
        ++ [23, 24, 25, 26, 27, 28, 29, 30, 31, 32, 33]
        ++ [34, 35, 36, 37, 38, 39, 40, 41, 42, 43, 44]) :=
  c3_dmp_operator_reorder 9 61 62 63 64
    1 2 3 4 5 6 7 8 9 10 11  12 13 14 15 16 17 18 19 20 21 22
    23 24 25 26 27 28 29 30 31 32 33  34 35 36 37 38 39 40 41 42 43 44
    (by decide)

theorem dmpOpBytes_lt {op : FMOperator} (h : OpBytesOK op) :
    ∀ b ∈ dmpOpBytes op, b < 256 := by
  obtain ⟨h1, h2, h3, h4, h5, h6, h7, h8, h9, h10, h11⟩ := h
  intro b hb
  simp only [dmpOpBytes, List.mem_cons, List.not_mem_nil, or_false] at hb
  rcases hb with rfl | rfl | rfl | rfl | rfl | rfl | rfl | rfl | rfl |
    rfl | rfl <;> assumption

/-- Claim C6, counterexample.  The claim says the version-11 DMP layout
carries a 32-byte null-terminated name before the 4-byte FM header,
consumed by the parser and emitted by the writer.  The writer's output
for a 4-operator preset is 51 bytes (3 prelude + 4 FM header + 44
operator bytes) — a layout with a 32-byte name would be at least 83
bytes — and the parser of a version-11 stream reads the `algorithm`
FM-header byte from offset 5, a position the claim places inside the
name field. -/
theorem c6_counterexample :
    (write_dmp_preset
        { format_type := none, operators := [{}, {}, {}, {}] }).map
        List.length = Except.ok 51 ∧
    ¬ 83 ≤ 51 ∧
    (parse_dmp ([11, 1, 1, 0, 0, 7, 0] ++ List.replicate 44 0)).map
        Dmp.algorithm = Except.ok 7 := by
  exact ⟨rfl, by omega, rfl⟩

/-- Claim C6 (status: corrected).  The DMP version-11 layout processed
by the codec carries a `system_type` byte after the version byte but
**no name field**: the parser reads the instrument-mode byte directly
after `system_type` and the 4-byte FM header immediately after that,
and the version-11 writer emits the FM header right after the three
prelude bytes `version=11, system_type=1, instrument_mode=1`, for a
total of 51 bytes with 4 operators. -/
theorem c6_v11_layout_no_name (st fms fb alg ams : Nat) (p : Preset)
    (w x y z : FMOperator) (hops : p.operators = [w, x, y, z])
    (hb : PresetBytesOK p) :
    (parse_dmp (11 :: st :: 1 :: fms :: fb :: alg :: ams ::
        List.replicate 44 0)).map
        (fun d => (d.version, d.system_type, d.instrument_mode,
                   d.lfo_fms, d.feedback, d.algorithm, d.lfo_ams)) =
      Except.ok (11, some st, 1, fms, fb, alg, ams) ∧
    write_dmp_preset p =
      Except.ok ([11, 1, 1, p.lfo_fms, p.feedback, p.algorithm, p.lfo_ams]
        ++ dmpOpBytes w ++ dmpOpBytes y ++ dmpOpBytes x ++ dmpOpBytes z) ∧
    (write_dmp_preset p).map List.length = Except.ok 51 := by
  obtain ⟨ha, hf, hams, hfms, hopsb⟩ := hb
  have hw : OpBytesOK w := hopsb w (by rw [hops]; simp)
  have hx : OpBytesOK x := hopsb x (by rw [hops]; simp)
  have hy : OpBytesOK y := hopsb y (by rw [hops]; simp)
  have hz : OpBytesOK z := hopsb z (by rw [hops]; simp)
  have hwrite : write_dmp_preset p =
      Except.ok ([11, 1, 1, p.lfo_fms, p.feedback, p.algorithm, p.lfo_ams]
        ++ dmpOpBytes w ++ dmpOpBytes y ++ dmpOpBytes x ++ dmpOpBytes z) := by
    rw [write_dmp_preset, hops, if_neg (by simp)]
    apply pyBytes_ok
    show ∀ b ∈ ([11, 1, 1, p.lfo_fms, p.feedback, p.algorithm, p.lfo_ams]
        ++ dmpOpBytes w ++ dmpOpBytes y ++ dmpOpBytes x ++ dmpOpBytes z),
      b < 256
    intro b hbm
    simp only [List.mem_append, List.mem_cons, List.not_mem_nil,
      or_false] at hbm
    rcases hbm with ((((rfl | rfl | rfl | rfl | rfl | rfl | rfl) | h) | h)
        | h) | h
    · omega
    · omega
    · omega
    · exact hfms
    · exact hf
    · exact ha
    · exact hams
    · exact dmpOpBytes_lt hw b h
    · exact dmpOpBytes_lt hy b h
    · exact dmpOpBytes_lt hx b h
    · exact dmpOpBytes_lt hz b h
  refine ⟨rfl, hwrite, ?_⟩
  rw [hwrite]
  rfl

/-- Witness for `c6_v11_layout_no_name` at the all-zero preset. -/
theorem c6_v11_layout_no_name_witness :
    (parse_dmp (11 :: 0 :: 1 :: 0 :: 0 :: 0 :: 0 ::
        List.replicate 44 0)).map
        (fun d => (d.version, d.system_type, d.instrument_mode,
                   d.lfo_fms, d.feedback, d.algorithm, d.lfo_ams)) =
      Except.ok (11, some 0, 1, 0, 0, 0, 0) ∧
    write_dmp_preset { format_type := none, operators := [{}, {}, {}, {}] } =
      Except.ok ([11, 1, 1, 0, 0, 0, 0]
        ++ dmpOpBytes {} ++ dmpOpBytes {} ++ dmpOpBytes {} ++ dmpOpBytes {}) ∧
    (write_dmp_preset
        { format_type := none, operators := [{}, {}, {}, {}] }).map
        List.length = Except.ok 51 :=
  c6_v11_layout_no_name 0 0 0 0 0
    { format_type := none, operators := [{}, {}, {}, {}] }
    {} {} {} {} rfl (by decide)

/-- Every successful `parse_dump_response` saw the full MDMI dump-response
frame: the `F0 00 22 77 0E` prefix, a trailing `F7` and at least
8 + 4 + 44 bytes. -/
theorem parse_dump_response_ok_shape {r : List Nat} {p : Preset}
    (h : parse_dump_response r = Except.ok p) :
    r.getD 0 0 = 0xF0 ∧ (r.drop 1).take 3 = [0x00, 0x22, 0x77] ∧
    r.getD 4 0 = 0x0E ∧ r.getLast? = some 0xF7 ∧ 56 ≤ r.length := by
  unfold parse_dump_response at h
  split_ifs at h with h1 h2 h3 h4 h5
  push_neg at h2 h3 h5
  exact ⟨h2.1, h2.2.1, h2.2.2, h3, by omega⟩

/-- Claim C8 (status: confirmed).  Every byte sequence that is missing
the trailing `F7`, or is too short for the 8-byte header plus 4 scalar
and 44 operator bytes, or whose `F0`/vendor/command prefix does not
match the dump-response header, makes `parse_dump_response` raise
`PresetParseError` (an error result carries no partially-populated
Preset), and the dump orchestrator then classifies the outcome as a
malformed response, preserving the original raw bytes in hex for
display. -/
theorem c8_malformed_dump_reply (output_format : String) (r : List Nat)
    (h : r.getLast? ≠ some 0xF7 ∨ r.length < 56 ∨
         r.getD 0 0 ≠ 0xF0 ∨ (r.drop 1).take 3 ≠ [0x00, 0x22, 0x77] ∨
         r.getD 4 0 ≠ 0x0E) :
    ∃ e, parse_dump_response r = Except.error e ∧
      execute_dump_command output_format parse_dump_response (some r) =
        DumpOutcome.malformedResponse (hexJoin r) e := by
  cases hp : parse_dump_response r with
  | error e =>
    refine ⟨e, rfl, ?_⟩
    simp [execute_dump_command, hp]
  | ok p =>
    have hs := parse_dump_response_ok_shape hp
    rcases h with h | h | h | h | h
    · exact absurd hs.2.2.2.1 h
    · have := hs.2.2.2.2; omega
    · exact absurd hs.1 h
    · exact absurd hs.2.1 h
    · exact absurd hs.2.2.1 h

/-- Witness for `c8_malformed_dump_reply` at the empty reply. -/
theorem c8_malformed_dump_reply_witness :
    ∃ e, parse_dump_response [] = Except.error e ∧
      execute_dump_command "dmp" parse_dump_response (some []) =
        DumpOutcome.malformedResponse (hexJoin []) e :=
  c8_malformed_dump_reply "dmp" [] (Or.inl (by decide))

end Mdmi
